import Mathlib

/-!
Verification development for the miner-sentinel device telemetry collection
engine.  The definitions below are a shallow embedding of the Python source
under `src/data-service/collectors/` (BitAxeCollector and AvalonCollector)
together with the column defaults declared in `src/backend/api/models.py`.

Modelling conventions:
* Python floats are modelled as exact rationals (`ℚ`); the claims under
  scrutiny are about the arithmetic formulas, not about rounding.
* The relational store is modelled as an in-memory structure: tables are
  association lists / newest-first row lists.  A row inserted by a
  collector becomes visible to queries on other connections only once its
  transaction commits (READ COMMITTED): that is after the avalon
  best-difficulty check runs, and before every other modelled check.
* Python exceptions are modelled with `Except PyErr`; a `try/except`
  clause becomes an explicit catch on the listed exception classes.
* Telegram notifications are modelled as emitted `AlertEvent` values.
-/

set_option maxRecDepth 4096

namespace MinerSentinel

/-- Python exception classes that the modelled code can raise or catch. -/
inductive PyErr where
  | valueError
  | typeError
  | indexError
  deriving DecidableEq, Repr

deriving instance DecidableEq for Except

/-- Alert events sent through the telegram notifier
(`send_device_offline_alert`, `send_device_online_alert`,
`send_hashrate_alert`, `send_device_restart_notification`,
`send_best_difficulty_alert`).  A "first best" alert is
`send_best_difficulty_alert` with previous best `0`. -/
inductive AlertEvent where
  | deviceOffline (device_id : String) (error_message : String)
  | deviceOnline (device_id : String)
  | hashrateStagnation (device_id : String) (current_hashrate : ℚ)
  | deviceRestart (device_id : String)
  | bestDifficulty (device_id : String) (current previous : ℚ)
  deriving DecidableEq, Repr

/- ----------------------------------------------------------------------
Kernel-computable rational arithmetic.
The `+ - * / abs` that Mathlib installs on `ℚ` are irreducible to the
kernel, so the embedded decoders compute with the following `mkRat`-based
operations instead; the bridge lemmas prove them equal to the standard
operations, which the specification theorems are stated with.
---------------------------------------------------------------------- -/

/-- Kernel-computable addition on `ℚ`. -/
def qadd (a b : ℚ) : ℚ := mkRat (a.num * b.den + b.num * a.den) (a.den * b.den)

/-- Kernel-computable subtraction on `ℚ`. -/
def qsub (a b : ℚ) : ℚ := mkRat (a.num * b.den - b.num * a.den) (a.den * b.den)

/-- Kernel-computable multiplication on `ℚ`. -/
def qmul (a b : ℚ) : ℚ := mkRat (a.num * b.num) (a.den * b.den)

/-- Kernel-computable absolute value on `ℚ` (Python `abs`). -/
def qabs (a : ℚ) : ℚ := mkRat (a.num.natAbs) a.den

/-- Kernel-computable division of a rational by a natural number. -/
def qdivNat (a : ℚ) (k : Nat) : ℚ := mkRat a.num (a.den * k)

/- ----------------------------------------------------------------------
MetricsComputer: efficiency, from
`bitaxe_collector.py` line 284 and `avalon_collector.py` line 517, both:
`(power / (hashrate_ghs / 1000.0)) if hashrate_ghs > 0 else 0`.
---------------------------------------------------------------------- -/

/-- Derived efficiency in J/TH, exactly as computed inline in both
collectors' `collect_device_data`. -/
def efficiency (power_w hashrate_ghs : ℚ) : ℚ :=
  if 0 < hashrate_ghs then power_w / (hashrate_ghs / 1000) else 0

/- ----------------------------------------------------------------------
C2: optional JSON fields of the bitaxe system-info payload.
`BitAxeCollector.collect_device_data` builds the `bitaxe_system_info`
INSERT parameters with `system_info.get('overheat_mode')`,
`system_info.get('rotation')` and `system_info.get('displayTimeout')`
(no second argument, hence Python `None` when the key is absent).
`backend/api/models.py` declares the corresponding columns as
`overheat_mode = IntegerField(default=0)`,
`display_rotation = IntegerField(default=0)`,
`display_timeout = IntegerField(default=-1)` — non-nullable integer
columns whose defaults exist only at the ORM layer.
---------------------------------------------------------------------- -/

/-- A JSON object restricted to the integer-valued fields relevant here;
an absent key is simply not in the list. -/
abbrev JsonDict := List (String × Int)

/-- Python `dict.get(key)` (default `None`). -/
def jsonGet (d : JsonDict) (key : String) : Option Int :=
  (d.find? (fun kv => kv.1 == key)).map (fun kv => kv.2)

/-- The three optional-field INSERT parameters exactly as
`BitAxeCollector.collect_device_data` computes them (lines 332-336):
`none` models the Python `None` that `dict.get` yields for an absent
key and that is forwarded into the SQL INSERT as NULL. -/
structure BitaxeSystemInfoParams where
  overheat_mode : Option Int
  display_rotation : Option Int
  display_timeout : Option Int
  deriving DecidableEq, Repr

/-- Parameter extraction for the `bitaxe_system_info` INSERT,
restricted to the three optional fields of the claim. -/
def bitaxeSystemInfoParams (system_info : JsonDict) : BitaxeSystemInfoParams :=
  { overheat_mode := jsonGet system_info "overheat_mode"
    display_rotation := jsonGet system_info "rotation"
    display_timeout := jsonGet system_info "displayTimeout" }

/-- Documented default of `BitAxeSystemInfo.overheat_mode`
(`models.py` line 102: `IntegerField(default=0)`). -/
def overheat_mode_default : Int := 0

/-- Documented default of `BitAxeSystemInfo.display_rotation`
(`models.py` line 116: `IntegerField(default=0)`). -/
def display_rotation_default : Int := 0

/-- Documented default of `BitAxeSystemInfo.display_timeout`
(`models.py` line 118: `IntegerField(default=-1)`). -/
def display_timeout_default : Int := -1

/- ----------------------------------------------------------------------
Device status updates (C1, C10).
`BitAxeCollector.update_device_status` (lines 155-211) and
`AvalonCollector.update_device_status` (lines 209-270) are identical in
every respect modelled here: SELECT the row, early-return when absent,
UPDATE `last_seen_at` (only on a successful poll) and `error_message`
— note that the UPDATE statement touches no other column, in
particular it never writes `is_active` — then compare the previously
SELECTed `is_active` against the poll outcome and send alerts.
---------------------------------------------------------------------- -/

/-- One row of the `bitaxe_devices` / `avalon_devices` table, restricted
to the columns `update_device_status` reads or writes. -/
structure DeviceRow where
  is_active : Bool
  last_seen_at : Option Nat
  device_name : Option String
  error_message : String
  deriving DecidableEq, Repr

/-- A devices table keyed by `device_id`. -/
abbrev DeviceTable := List (String × DeviceRow)

/-- `SELECT ... WHERE device_id = %s` (the `device_id` column is unique). -/
def deviceLookup (db : DeviceTable) (device_id : String) : Option DeviceRow :=
  (db.find? (fun kv => kv.1 == device_id)).map (fun kv => kv.2)

/-- `UPDATE ... WHERE device_id = %s`: replace the row stored under the key. -/
def deviceStore (db : DeviceTable) (device_id : String) (row : DeviceRow) : DeviceTable :=
  db.map (fun kv => if kv.1 == device_id then (kv.1, row) else kv)

namespace Bitaxe

/-- `BitAxeCollector.update_device_status` (lines 155-211).
`now` stands for the SQL `NOW()`.  Returns the updated table and the
alerts sent.  The UPDATE (lines 175-180) sets
`last_seen_at = CASE WHEN is_online THEN NOW() ELSE last_seen_at END`
and `error_message`; it does not assign `is_active`. -/
def update_device_status (db : DeviceTable) (now : Nat) (device_id : String)
    (is_online : Bool) (error_message : String := "") : DeviceTable × List AlertEvent :=
  match deviceLookup db device_id with
  | none => (db, [])  -- Device doesn't exist yet
  | some row =>
    let row2 : DeviceRow :=
      { row with
        last_seen_at := if is_online then some now else row.last_seen_at
        error_message := error_message }
    let db2 := deviceStore db device_id row2
    let alerts : List AlertEvent :=
      if row.is_active ∧ ¬ is_online then
        [AlertEvent.deviceOffline device_id error_message]
      else if ¬ row.is_active ∧ is_online then
        [AlertEvent.deviceOnline device_id]
      else []
    (db2, alerts)

end Bitaxe

namespace Avalon

/-- `AvalonCollector.update_device_status` (lines 209-270); identical to
the bitaxe version in every modelled respect (the two differ only in how
the human-readable offline duration string is formatted). -/
def update_device_status (db : DeviceTable) (now : Nat) (device_id : String)
    (is_online : Bool) (error_message : String := "") : DeviceTable × List AlertEvent :=
  match deviceLookup db device_id with
  | none => (db, [])  -- Device doesn't exist yet
  | some row =>
    let row2 : DeviceRow :=
      { row with
        last_seen_at := if is_online then some now else row.last_seen_at
        error_message := error_message }
    let db2 := deviceStore db device_id row2
    let alerts : List AlertEvent :=
      if row.is_active ∧ ¬ is_online then
        [AlertEvent.deviceOffline device_id error_message]
      else if ¬ row.is_active ∧ is_online then
        [AlertEvent.deviceOnline device_id]
      else []
    (db2, alerts)

end Avalon

/-- Run `update_device_status` over a sequence of poll outcomes
(`true` = successful poll, `false` = failed poll), threading the devices
table and concatenating the alerts, as consecutive collection cycles do. -/
def runBitaxePolls (db : DeviceTable) (device_id : String) (polls : List Bool) :
    DeviceTable × List AlertEvent :=
  polls.foldl
    (fun acc p =>
      let r := Bitaxe.update_device_status acc.1 0 device_id p
        (if p then "" else "connection timeout")
      (r.1, acc.2 ++ r.2))
    (db, [])

/-- Same cycle driver for the avalon family. -/
def runAvalonPolls (db : DeviceTable) (device_id : String) (polls : List Bool) :
    DeviceTable × List AlertEvent :=
  polls.foldl
    (fun acc p =>
      let r := Avalon.update_device_status acc.1 0 device_id p
        (if p then "" else "connection timeout")
      (r.1, acc.2 ++ r.2))
    (db, [])

/-- Number of device-offline alerts in an alert list. -/
def countOffline (l : List AlertEvent) : Nat :=
  l.countP (fun a => match a with | AlertEvent.deviceOffline _ _ => true | _ => false)

/-- Number of device-online alerts in an alert list. -/
def countOnline (l : List AlertEvent) : Nat :=
  l.countP (fun a => match a with | AlertEvent.deviceOnline _ => true | _ => false)

/-- A one-device table whose device is registered and currently marked active. -/
def activeDeviceTable : DeviceTable :=
  [("bitaxe1", { is_active := true, last_seen_at := some 0,
                 device_name := some "BitAxe Gamma", error_message := "" })]

/- ----------------------------------------------------------------------
Best-difficulty checks (C3).
`BitAxeCollector.check_best_difficulty_improvement` (lines 114-153) and
`AvalonCollector.check_best_difficulty_improvement` (lines 286-324).
Both run the query
`SELECT ... WHERE ... AND <best column> > 0 ORDER BY recorded_at DESC
LIMIT 1 OFFSET 1` over the rows visible to a fresh connection; `rows`
is that visible best-difficulty column, newest first.  The two callers
differ in what is visible: the bitaxe check runs after
`conn.commit()` (line 343), so its `rows` include the sample the
current cycle just inserted; the avalon check is called at line 507,
before the `conn.commit()` at line 575, so under READ COMMITTED its
`rows` exclude the just-inserted (still uncommitted) sample.  The
bitaxe version has no branch for `previous_best == 0`; the avalon
version sends the same alert with previous `0` in that case.
---------------------------------------------------------------------- -/

namespace Bitaxe

/-- `BitAxeCollector.check_best_difficulty_improvement` (lines 114-153). -/
def check_best_difficulty_improvement (rows : List ℚ) (device_id device_name : String)
    (current_best_diff : ℚ) : List AlertEvent :=
  let previous_best := (((rows.filter (fun r => decide (0 < r))).drop 1).head?).getD 0
  if 0 < current_best_diff ∧ 0 < previous_best then
    if 5 ≤ ((current_best_diff - previous_best) / previous_best) * 100 then
      [AlertEvent.bestDifficulty device_id current_best_diff previous_best]
    else []
  else []

end Bitaxe

namespace Avalon

/-- `AvalonCollector.check_best_difficulty_improvement` (lines 286-324);
same query and 5% rule as the bitaxe version, plus the extra
first-ever-best branch of lines 313-318.  Its `rows` are only the
previously committed samples: the call site (line 507) precedes the
inserting connection's commit (line 575) and the check opens its own
connection, so the just-inserted sample is not visible to its query and
`OFFSET 1` skips a genuine prior positive row. -/
def check_best_difficulty_improvement (rows : List ℚ) (device_id device_name : String)
    (current_best_diff : ℚ) : List AlertEvent :=
  let previous_best := (((rows.filter (fun r => decide (0 < r))).drop 1).head?).getD 0
  if 0 < current_best_diff ∧ 0 < previous_best then
    if 5 ≤ ((current_best_diff - previous_best) / previous_best) * 100 then
      [AlertEvent.bestDifficulty device_id current_best_diff previous_best]
    else []
  else if 0 < current_best_diff ∧ previous_best = 0 then
    -- First ever best share for this device
    [AlertEvent.bestDifficulty device_id current_best_diff 0]
  else []

end Avalon

/-- The claim's notion of the comparison baseline: the most recent
previously stored positive best difficulty (0 when none exists).  With
`rows = current :: old` and `current > 0`, the JSON/HTTP collector's
`OFFSET 1` query — which runs after its commit — computes exactly this
value. -/
def mostRecentPriorPositiveBest (old : List ℚ) : ℚ :=
  ((old.filter (fun r => decide (0 < r))).head?).getD 0

/-- The value the text/socket family's check actually compares against:
its query runs before the current sample's INSERT commits and on a
separate connection, so over the committed rows `old` its
`LIMIT 1 OFFSET 1` lands on the second most recent previously stored
positive best (0 when fewer than two exist). -/
def secondMostRecentPriorPositiveBest (old : List ℚ) : ℚ :=
  (((old.filter (fun r => decide (0 < r))).drop 1).head?).getD 0

/- ----------------------------------------------------------------------
Hashrate stagnation checks (C4).
`BitAxeCollector.check_hashrate_stagnation` (lines 77-112) and
`AvalonCollector.check_hashrate_stagnation` (lines 172-207).
`rows` is the stored hashrate column newest first, including the row
inserted by the current cycle (both callers run the check after the
INSERT is committed); the SQL `LIMIT 3` keeps the first three.
---------------------------------------------------------------------- -/

namespace Bitaxe

/-- `BitAxeCollector.check_hashrate_stagnation` (lines 77-112): with at
least 3 recent values, alert and attempt a restart when every fetched
value is within 0.1 GH/s (strictly) of the first, i.e. newest, one. -/
def check_hashrate_stagnation (rows : List ℚ) (device_id : String)
    (current_hashrate : ℚ) : List AlertEvent :=
  let recent_hashrates := rows.take 3
  if 3 ≤ recent_hashrates.length then
    -- abs(hr - recent_hashrates[0]) < 0.1 for every fetched value
    if recent_hashrates.all
        (fun hr => decide (qabs (qsub hr recent_hashrates.headI) < mkRat 1 10)) then
      [AlertEvent.hashrateStagnation device_id current_hashrate,
       AlertEvent.deviceRestart device_id]
    else []
  else []

end Bitaxe

namespace Avalon

/-- `AvalonCollector.check_hashrate_stagnation` (lines 172-207):
identical to the bitaxe version with tolerance 0.01 GH/s. -/
def check_hashrate_stagnation (rows : List ℚ) (device_id : String)
    (current_hashrate : ℚ) : List AlertEvent :=
  let recent_hashrates := rows.take 3
  if 3 ≤ recent_hashrates.length then
    -- abs(hr - recent_hashrates[0]) < 0.01 for every fetched value
    if recent_hashrates.all
        (fun hr => decide (qabs (qsub hr recent_hashrates.headI) < mkRat 1 100)) then
      [AlertEvent.hashrateStagnation device_id current_hashrate,
       AlertEvent.deviceRestart device_id]
    else []
  else []

end Avalon

/-- The claim's words: all values of the list are mutually (pairwise)
within the absolute tolerance.  Taken non-strictly, the reading most
favourable to the claim. -/
def mutuallyWithin (tol : ℚ) (l : List ℚ) : Bool :=
  l.all (fun a => l.all (fun b => decide (qabs (qsub a b) ≤ tol)))

/- ----------------------------------------------------------------------
C5: the difficulty parser.
`BitAxeCollector._parse_difficulty` (lines 366-386):
`re.match(r'([\d.]+)\s*([KMGT])?', str(diff_str))`, then
`float(match.group(1)) * multipliers.get(match.group(2), 1)`.
---------------------------------------------------------------------- -/

/-- The character class of the regex group `[\d.]+`. -/
def isDigitDot (c : Char) : Bool := c.isDigit || c = '.'

/-- Python `str.strip()`, restricted to spaces (the modelled inputs
contain no other whitespace characters). -/
def stripSpaces (l : List Char) : List Char :=
  ((l.dropWhile (fun c => c = ' ')).reverse.dropWhile (fun c => c = ' ')).reverse

/-- Split a character list into its maximal digit prefix and the rest. -/
def takeDigits (l : List Char) : List Char × List Char :=
  (l.takeWhile Char.isDigit, l.dropWhile Char.isDigit)

/-- Numeric value of a digit string (most significant digit first). -/
def digitsToNat (l : List Char) : Nat :=
  l.foldl (fun acc c => acc * 10 + (c.toNat - 48)) 0

/-- Python `float(s)` on a string: parse a float literal — optional
surrounding spaces, optional sign, decimal mantissa holding at least one
digit, optional exponent part with at least one digit; `none` models the
`ValueError` that `float` raises on every other string.  (`inf`, `nan`
and digit-group underscores do not occur in the modelled payloads.)
The rational is built with a single `mkRat` so it evaluates in the
kernel. -/
def pyFloatLit (s : List Char) : Option ℚ :=
  let t := stripSpaces s
  let sgn : Bool := t.head? = some '-'
  let t1 : List Char :=
    if t.head? = some '-' ∨ t.head? = some '+' then t.tail else t
  let ipr := takeDigits t1
  let fpr : List Char × List Char :=
    if ipr.2.head? = some '.' then takeDigits ipr.2.tail else ([], ipr.2)
  if ipr.1.length + fpr.1.length = 0 then none
  else
    let mantNat : Nat := digitsToNat ipr.1 * 10 ^ fpr.1.length + digitsToNat fpr.1
    let mant : Int := if sgn then -(mantNat : Int) else (mantNat : Int)
    match fpr.2 with
    | [] => some (mkRat mant (10 ^ fpr.1.length))
    | c :: r3 =>
      if c = 'e' ∨ c = 'E' then
        let esgn : Bool := r3.head? = some '-'
        let r4 : List Char :=
          if r3.head? = some '-' ∨ r3.head? = some '+' then r3.tail else r3
        let edr := takeDigits r4
        if edr.1.length = 0 ∨ edr.2 ≠ [] then none
        else if esgn then some (mkRat mant (10 ^ (fpr.1.length + digitsToNat edr.1)))
        else some (mkRat (mant * (10:Int) ^ digitsToNat edr.1) (10 ^ fpr.1.length))
      else none

/-- Python `float(s)` as the modelled exception-aware operation. -/
def pyFloat (s : List Char) : Except PyErr ℚ :=
  match pyFloatLit s with
  | some v => Except.ok v
  | none => Except.error PyErr.valueError

/-- The two groups of `re.match(r'([\d.]+)\s*([KMGT])?', s)`. -/
structure DiffMatch where
  group1 : List Char
  group2 : Option Char
  deriving DecidableEq, Repr

/-- `re.match(r'([\d.]+)\s*([KMGT])?', s)`: `none` when the pattern does
not match at the start of the string (empty digit/dot run).  The
character classes of the three pieces are pairwise disjoint, so the
greedy quantifiers commit to the maximal runs without backtracking. -/
def matchDifficulty (s : List Char) : Option DiffMatch :=
  let g1 := s.takeWhile isDigitDot
  if g1.length = 0 then none
  else
    let rest := (s.drop g1.length).dropWhile (fun c => c = ' ')
    match rest.head? with
    | some c =>
      if c = 'K' ∨ c = 'M' ∨ c = 'G' ∨ c = 'T' then some ⟨g1, some c⟩
      else some ⟨g1, none⟩
    | none => some ⟨g1, none⟩

/-- `multipliers.get(unit, 1)` with
`multipliers = {'K': 1e3, 'M': 1e6, 'G': 1e9, 'T': 1e12}`. -/
def unitMult (u : Option Char) : ℚ :=
  if u = some 'K' then 1000
  else if u = some 'M' then 1000000
  else if u = some 'G' then 1000000000
  else if u = some 'T' then 1000000000000
  else 1

/-- The characters a unit suffix contributes to the input string. -/
def unitChars : Option Char → List Char
  | some c => [c]
  | none => []

/-- `BitAxeCollector._parse_difficulty` (lines 366-386).  `none` input
models Python `None` (`if not diff_str: return 0.0` also catches the
empty string); a `.error` result models an uncaught exception. -/
def _parse_difficulty (diff_str : Option (List Char)) : Except PyErr ℚ :=
  match diff_str with
  | none => Except.ok 0
  | some s =>
    if s.length = 0 then Except.ok 0
    else
      match matchDifficulty s with
      | none => Except.ok 0
      | some m => do
        let value ← pyFloat m.group1
        Except.ok (qmul value (unitMult m.group2))

/-- The float value of a numeric prefix with integer digits `ipd` and
fractional digits `fpd`. -/
def prefixValue (ipd fpd : List Char) : ℚ :=
  mkRat (digitsToNat ipd * 10 ^ fpd.length + digitsToNat fpd) (10 ^ fpd.length)

/-- The numeric prefix itself: `ipd.fpd` or plain `ipd`. -/
def numericPrefix (ipd fpd : List Char) (hasDot : Bool) : List Char :=
  if hasDot then ipd ++ '.' :: fpd else ipd

/-- The five unit suffixes of the claim: none, `K`, `M`, `G`, `T`. -/
def unitSuffixes : List (Option Char) := [none, some 'K', some 'M', some 'G', some 'T']

/- ----------------------------------------------------------------------
C6/C7: the cgminer text decoder.
`AvalonCollector._parse_cgminer_response` (lines 98-145) and the
per-field extractors `_parse_hashrate_mhs` / `_parse_temperature_from_stats`
/ `_parse_power_from_stats` / `_parse_fan_speed_from_stats` /
`_parse_frequency_from_stats` / `_parse_voltage_from_stats` /
`_parse_memory_usage_from_stats` (lines 326-443).
---------------------------------------------------------------------- -/

/-- The `parsed_data` dict of `_parse_cgminer_response`. -/
abbrev StatsDict := List (List Char × List Char)

/-- `parsed_data[key] = value`: each key is written at most once per
parse, and lookups see the newest binding first. -/
def dictSet (d : StatsDict) (k v : List Char) : StatsDict := (k, v) :: d

/-- `stats_info.get(key)` on the parsed dict. -/
def dictGet? (d : StatsDict) (k : List Char) : Option (List Char) :=
  (d.find? (fun kv => kv.1 == k)).map (fun kv => kv.2)

/-- Python `s.split(sep)` for a one-character separator: keeps empty
pieces; splitting the empty string yields `[""]`. -/
def splitOnChar (sep : Char) : List Char → List (List Char)
  | [] => [[]]
  | c :: cs =>
    let rest := splitOnChar sep cs
    if c = sep then [] :: rest
    else
      match rest with
      | r :: rs => (c :: r) :: rs
      | [] => [[c]]

/-- Python `s.split()` with no argument: split on whitespace and drop
empty pieces (the modelled payloads separate tokens with spaces). -/
def splitWs (l : List Char) : List (List Char) :=
  (splitOnChar ' ' l).filter (fun t => ! t.isEmpty)

/-- Python `s.find(sub)` / `sub in s`: index of the first occurrence. -/
def findSub (sub : List Char) : List Char → Option Nat
  | [] => if sub.isEmpty then some 0 else none
  | c :: cs =>
    if sub.isPrefixOf (c :: cs) then some 0
    else (findSub sub cs).map (fun i => i + 1)

/-- Python `s.split(sep, 1)`: the part before the first separator and,
when the separator occurs, the part after it. -/
def splitLimit1 (sep : Char) : List Char → List Char × Option (List Char)
  | [] => ([], none)
  | c :: cs =>
    if c = sep then ([], some cs)
    else
      let r := splitLimit1 sep cs
      (c :: r.1, r.2)

/-- `key, value = pair.split(sep, 1)`: unpacking raises `ValueError`
when the separator is absent (the split yields a single element). -/
def unpack2 (p : List Char × Option (List Char)) : Except PyErr (List Char × List Char) :=
  match p.2 with
  | some v => Except.ok (p.1, v)
  | none => Except.error PyErr.valueError

/-- The `for end_marker in [',MM Count=', ',Nonce Mask=', '|']` loop of
`_parse_cgminer_response` (lines 115-119): truncate the blob at the
first marker, in that order, that occurs in it. -/
def truncateAtMarkers (content : List Char) : List Char :=
  match findSub (",MM Count=" : String).toList content with
  | some i => content.take i
  | none =>
    match findSub (",Nonce Mask=" : String).toList content with
    | some i => content.take i
    | none =>
      match findSub (("|" : String).toList) content with
      | some i => content.take i
      | none => content

/-- One iteration of the comma loop inside the `STATS=`/`MM ID0=`
branch (lines 123-127): `if '=' in pair and not
pair.strip().startswith('MM ID0='): key, value = pair.split('=', 1);
parsed_data[key.strip()] = value.strip()`. -/
def parsePairSkipMM (acc : StatsDict) (pair : List Char) : Except PyErr StatsDict :=
  if pair.contains '=' &&
      ! (("MM ID0=" : String).toList.isPrefixOf (stripSpaces pair)) then do
    let kv ← unpack2 (splitLimit1 '=' pair)
    Except.ok (dictSet acc (stripSpaces kv.1) (stripSpaces kv.2))
  else Except.ok acc

/-- One iteration of the comma loop of the normal branch
(lines 131-135). -/
def parsePairPlain (acc : StatsDict) (pair : List Char) : Except PyErr StatsDict :=
  if pair.contains '=' then do
    let kv ← unpack2 (splitLimit1 '=' pair)
    Except.ok (dictSet acc (stripSpaces kv.1) (stripSpaces kv.2))
  else Except.ok acc

/-- One iteration of the `for part in parts` loop of
`_parse_cgminer_response` (lines 105-139). -/
def parsePart (acc : StatsDict) (part : List Char) : Except PyErr StatsDict :=
  if part.contains '=' then
    if ("STATS=" : String).toList.isPrefixOf part ||
        (findSub (("MM ID0=" : String).toList) part).isSome then
      let acc1 :=
        match findSub (("MM ID0=" : String).toList) part with
        | some i =>
          -- Skip "MM ID0=" (7 characters), then cut at the next field
          dictSet acc ("MM ID0" : String).toList (truncateAtMarkers (part.drop (i + 7)))
        | none => acc
      (splitOnChar ',' part).foldlM parsePairSkipMM acc1
    else
      if part.contains ',' then
        (splitOnChar ',' part).foldlM parsePairPlain acc
      else do
        let kv ← unpack2 (splitLimit1 '=' part)
        Except.ok (dictSet acc (stripSpaces kv.1) (stripSpaces kv.2))
  else Except.ok acc

/-- The body of `_parse_cgminer_response` before its catch-all handler:
split the response on `|` and fold the part parser over the pieces. -/
def _parse_cgminer_response_inner (response_str : List Char) : Except PyErr StatsDict :=
  (splitOnChar '|' response_str).foldlM parsePart []

/-- `AvalonCollector._parse_cgminer_response` (lines 98-145): the outer
`except Exception: return {}` makes the parse total. -/
def _parse_cgminer_response (response_str : List Char) : StatsDict :=
  match _parse_cgminer_response_inner response_str with
  | Except.ok d => d
  | Except.error _ => []

/-- One attempt of `re.search` for a pattern `tag(X+)\]` at the current
position: the literal `tag` (ending in `[`), then a nonempty run of
class-`X` characters, then `]`. -/
def bracketHere (tag : List Char) (good : Char → Bool) (l : List Char) : Option (List Char) :=
  if tag.isPrefixOf l then
    let rest := l.drop tag.length
    let run := rest.takeWhile good
    if run.isEmpty then none
    else
      match (rest.drop run.length).head? with
      | some c => if c = ']' then some run else none
      | none => none
  else none

/-- `re.search(r'tag\[(X+)\]', s)` for a literal `tag` and a character
class `X` that excludes `]` (all patterns used here are of this shape,
so the greedy run never backtracks): return the group of the leftmost
position where the whole pattern matches. -/
def searchBracket (tag : List Char) (good : Char → Bool) : List Char → Option (List Char)
  | [] => bracketHere tag good []
  | c :: cs =>
    match bracketHere tag good (c :: cs) with
    | some run => some run
    | none => searchBracket tag good cs

/-- Python list indexing `l[i]`: `IndexError` when out of range. -/
def pyIndex (l : List (List Char)) (i : Nat) : Except PyErr (List Char) :=
  match l.get? i with
  | some x => Except.ok x
  | none => Except.error PyErr.indexError

/-- Python `int(s)`: the modelled call sites feed it regex `\d+`
matches, so plain nonempty digit strings convert and anything else
raises `ValueError`. -/
def pyIntDigits (s : List Char) : Except PyErr Int :=
  if s.all Char.isDigit && ! s.isEmpty then Except.ok (digitsToNat s)
  else Except.error PyErr.valueError

/-- Python `max` on two rationals. -/
def pyMax (a b : ℚ) : ℚ := if a < b then b else a

/-- A `try: ... except (C1, C2, ...): return dflt` wrapper: errors of
the listed classes are replaced by the default, others propagate. -/
def catchClasses {α : Type} (classes : List PyErr) (x : Except PyErr α) (dflt : α) :
    Except PyErr α :=
  match x with
  | Except.ok v => Except.ok v
  | Except.error e => if e ∈ classes then Except.ok dflt else Except.error e

/-- `stats_info.get('MM ID0', '')`. -/
def mmId0 (stats_info : StatsDict) : List Char :=
  (dictGet? stats_info ("MM ID0" : String).toList).getD []

/-- `AvalonCollector._parse_hashrate_mhs` (lines 326-332):
`float(mhs_str) / 1000.0`, `except (ValueError, TypeError): return 0.0`. -/
def _parse_hashrate_mhs (mhs_str : List Char) : Except PyErr ℚ :=
  catchClasses [PyErr.valueError, PyErr.typeError]
    (do
      let mhs_value ← pyFloat mhs_str
      Except.ok (qdivNat mhs_value 1000)) 0

/-- `AvalonCollector._parse_temperature_from_stats` (lines 334-352):
`OTemp[\d+]` unless the group is the sentinel `-273` (impossible for a
`\d+` group, mirrored anyway), falling back to `TAvg[\d+]`, else 0.0. -/
def _parse_temperature_from_stats (stats_info : StatsDict) : Except PyErr ℚ :=
  catchClasses [PyErr.valueError, PyErr.typeError]
    (match searchBracket ("OTemp[" : String).toList Char.isDigit (mmId0 stats_info) with
     | some g =>
       if g ≠ ("-273" : String).toList then pyFloat g
       else
         match searchBracket ("TAvg[" : String).toList Char.isDigit (mmId0 stats_info) with
         | some g2 => pyFloat g2
         | none => Except.ok 0
     | none =>
       match searchBracket ("TAvg[" : String).toList Char.isDigit (mmId0 stats_info) with
       | some g2 => pyFloat g2
       | none => Except.ok 0) 0

/-- The `MPO`/`ATA2` fallbacks of `_parse_power_from_stats`
(lines 370-382). -/
def mpoAta2Fallback (mm : List Char) : Except PyErr ℚ :=
  match searchBracket ("MPO[" : String).toList Char.isDigit mm with
  | some g => pyFloat g
  | none =>
    match searchBracket ("ATA2[" : String).toList (fun c => ! (c = ']')) mm with
    | some g =>
      let ata2_values := splitOnChar '-' g
      if 1 ≤ ata2_values.length then do
        let s ← pyIndex ata2_values 0
        pyFloat s
      else Except.ok 0
    | none => Except.ok 0

/-- `AvalonCollector._parse_power_from_stats` (lines 354-384): when the
`PS[...]` array has at least 7 whitespace-separated entries the power is
`float(ps_values[6])` — the entry at index 6 — otherwise the code falls
through to the `MPO`/`ATA2` fallbacks; `except (ValueError, TypeError,
IndexError): return 0.0`. -/
def _parse_power_from_stats (stats_info : StatsDict) : Except PyErr ℚ :=
  catchClasses [PyErr.valueError, PyErr.typeError, PyErr.indexError]
    (match searchBracket ("PS[" : String).toList (fun c => ! (c = ']')) (mmId0 stats_info) with
     | some g =>
       let ps_values := splitWs g
       if 7 ≤ ps_values.length then do
         let s ← pyIndex ps_values 6
         pyFloat s
       else mpoAta2Fallback (mmId0 stats_info)
     | none => mpoAta2Fallback (mmId0 stats_info)) 0

/-- `AvalonCollector._parse_fan_speed_from_stats` (lines 386-397):
`int` of the `Fan1[\d+]` group, else 0. -/
def _parse_fan_speed_from_stats (stats_info : StatsDict) : Except PyErr Int :=
  catchClasses [PyErr.valueError, PyErr.typeError]
    (match searchBracket ("Fan1[" : String).toList Char.isDigit (mmId0 stats_info) with
     | some g => pyIntDigits g
     | none => Except.ok 0) 0

/-- `AvalonCollector._parse_frequency_from_stats` (lines 399-410):
`float` of the `Freq[[\d.]+]` group, else 0.0. -/
def _parse_frequency_from_stats (stats_info : StatsDict) : Except PyErr ℚ :=
  catchClasses [PyErr.valueError, PyErr.typeError]
    (match searchBracket ("Freq[" : String).toList isDigitDot (mmId0 stats_info) with
     | some g => pyFloat g
     | none => Except.ok 0) 0

/-- `AvalonCollector._parse_voltage_from_stats` (lines 412-427): first
element of the `PVT_V0[...]` array divided by 100 (centivolts), else
0.0. -/
def _parse_voltage_from_stats (stats_info : StatsDict) : Except PyErr ℚ :=
  catchClasses [PyErr.valueError, PyErr.typeError, PyErr.indexError]
    (match searchBracket ("PVT_V0[" : String).toList (fun c => ! (c = ']'))
        (mmId0 stats_info) with
     | some g =>
       let voltage_values := splitWs g
       if voltage_values.isEmpty then Except.ok 0
       else do
         let s ← pyIndex voltage_values 0
         let voltage_cv ← pyFloat s
         Except.ok (qdivNat voltage_cv 100)
     | none => Except.ok 0) 0

/-- `AvalonCollector._parse_memory_usage_from_stats` (lines 429-443):
`max(0, (131072 - MEMFREE) / 131072 * 100)`, else 0.0. -/
def _parse_memory_usage_from_stats (stats_info : StatsDict) : Except PyErr ℚ :=
  catchClasses [PyErr.valueError, PyErr.typeError]
    (match searchBracket ("MEMFREE[" : String).toList Char.isDigit (mmId0 stats_info) with
     | some g => do
       let free_kb ← pyFloat g
       -- estimated_total = 128 * 1024 kB
       Except.ok (pyMax 0 (qmul (qdivNat (qsub 131072 free_kb) 131072) 100))
     | none => Except.ok 0) 0

/-- The hardware metrics `collect_device_data` (lines 509-514, 567)
decodes from one `estats` response. -/
structure AvalonStatsMetrics where
  temperature_c : ℚ
  power_watts : ℚ
  fan_speed_rpm : Int
  frequency_mhz : ℚ
  voltage : ℚ
  memory_usage_percent : ℚ
  deriving DecidableEq, Repr

/-- The estats decode pipeline: section parsing followed by every
per-field extractor, as `collect_device_data` applies them. -/
def decodeAvalonStats (raw : List Char) : Except PyErr AvalonStatsMetrics := do
  let stats_info := _parse_cgminer_response raw
  let temperature_c ← _parse_temperature_from_stats stats_info
  let power_watts ← _parse_power_from_stats stats_info
  let fan_speed_rpm ← _parse_fan_speed_from_stats stats_info
  let frequency_mhz ← _parse_frequency_from_stats stats_info
  let voltage ← _parse_voltage_from_stats stats_info
  let memory_usage_percent ← _parse_memory_usage_from_stats stats_info
  Except.ok ⟨temperature_c, power_watts, fan_speed_rpm, frequency_mhz, voltage,
             memory_usage_percent⟩

/-- The estats payload of the spec's example scenario (shaped like a
cgminer `STATS` section with the `MM ID0` blob). -/
def examplePayload : List Char :=
  ("STATS=0,MM ID0=Ver[8612] OTemp[65] PS[0 0 27541 4 0 3756 133] Fan1[1520] Freq[464.89],MM Count=1" : String).toList

/-- The same payload with an eight-element `PS` array whose last element
is 999. -/
def examplePayloadPS8 : List Char :=
  ("STATS=0,MM ID0=Ver[8612] OTemp[65] PS[0 0 27541 4 0 3756 133 999] Fan1[1520] Freq[464.89],MM Count=1" : String).toList

/- ----------------------------------------------------------------------
C9: the collection cycle.
`BitAxeCollector.collect_device_data` / `collect_all_devices`
(lines 227-398) and the identically structured
`AvalonCollector.collect_device_data` / `collect_all_devices`
(lines 445-600).
---------------------------------------------------------------------- -/

/-- A registry entry, as `update_devices` stores it. -/
structure Device where
  device_id : String
  ip_address : String
  deriving DecidableEq, Repr

/-- The externally observable steps of one device collection. -/
inductive CollectStep where
  | statusOnline (device_id : String)
  | sampleInserted (device_id : String)
  | statusOffline (device_id : String) (error_message : String)
  deriving DecidableEq, Repr

/-- The device a step belongs to. -/
def stepDevice : CollectStep → String
  | CollectStep.statusOnline d => d
  | CollectStep.sampleInserted d => d
  | CollectStep.statusOffline d _ => d

/-- `collect_device_data` (bitaxe lines 227-364, avalon lines 445-588),
abstracted over its fallible stages.  `fetch` stands for the
`_api_request`/`_socket_request` calls (which raise after retry
exhaustion) together with the decode of their results; `persist` for
the INSERT/commit block and the post-commit checks, all inside the
body's `try`.  `statusConn` stands for the
`conn = self.get_db_connection()` / `cursor = conn.cursor()` pair that
`update_device_status` executes BEFORE its own `try:` (bitaxe lines
157-158, avalon lines 211-212): when the database is unreachable those
calls raise outside every handler inside `update_device_status`, and
the exception propagates to the caller of `update_device_status`
(everything after that pair is covered by its `try/except/finally`, so
`statusConn` is the only way a status update can raise).  The whole
body sits in `try: ... except Exception as e:
update_device_status(device_id, device_ip, False, str(e))`: a fetch or
persist failure is normally converted into an offline status update
carrying the message — but when `statusConn` fails, the
`update_device_status` call in the handler (or the online one in the
body, whose failure the handler then reproduces) raises, and that
exception escapes `collect_device_data`. -/
def collect_device_data (fetch persist statusConn : String → Except String Unit)
    (d : Device) : Except String (List CollectStep) :=
  match fetch d.device_id with
  | Except.error e =>
    -- except: update_device_status(device_id, device_ip, False, str(e))
    match statusConn d.device_id with
    | Except.error e2 => Except.error e2
    | Except.ok _ => Except.ok [CollectStep.statusOffline d.device_id e]
  | Except.ok _ =>
    -- update_device_status(device_id, device_ip, True)
    match statusConn d.device_id with
    | Except.error e2 =>
      -- raised inside the try; the except handler's own
      -- update_device_status hits the same connection failure
      Except.error e2
    | Except.ok _ =>
      match persist d.device_id with
      | Except.error e =>
        -- except: the offline update succeeds (statusConn is ok here)
        Except.ok [CollectStep.statusOnline d.device_id,
                   CollectStep.statusOffline d.device_id e]
      | Except.ok _ =>
        Except.ok [CollectStep.statusOnline d.device_id,
                   CollectStep.sampleInserted d.device_id]

/-- The step list `collect_device_data` produces when the
status-recording connection is available for the device; the lemma
`collect_device_data_ok` states the connection. -/
def deviceSteps (fetch persist : String → Except String Unit) (d : Device) :
    List CollectStep :=
  match fetch d.device_id with
  | Except.error e => [CollectStep.statusOffline d.device_id e]
  | Except.ok _ =>
    match persist d.device_id with
    | Except.error e =>
      [CollectStep.statusOnline d.device_id, CollectStep.statusOffline d.device_id e]
    | Except.ok _ =>
      [CollectStep.statusOnline d.device_id, CollectStep.sampleInserted d.device_id]

/-- `collect_all_devices` (bitaxe lines 388-398, avalon lines 590-600):
the sequential `for device in self.devices` loop.  An exception escaping
the body aborts the remaining iterations, which the `Except` bind
models. -/
def collect_all_devices (fetch persist statusConn : String → Except String Unit)
    (devices : List Device) : Except String (List CollectStep) :=
  devices.foldlM
    (fun acc d =>
      (collect_device_data fetch persist statusConn d).map (fun steps => acc ++ steps)) []

/- ----------------------------------------------------------------------
Bridge lemmas for the kernel-computable arithmetic, then the claim
theorems.
---------------------------------------------------------------------- -/

theorem mkRat_eq_div' (n : Int) (d : Nat) : mkRat n d = (n : ℚ) / (d : ℚ) := by
  rw [Rat.mkRat_eq_divInt, Rat.divInt_eq_div]
  norm_num

theorem num_eq_mul_den (a : ℚ) : (a.num : ℚ) = a * a.den := by
  have ha : (a.den : ℚ) ≠ 0 := by exact_mod_cast a.den_nz
  have h := Rat.num_div_den a
  rw [div_eq_iff ha] at h
  exact h

theorem qadd_eq (a b : ℚ) : qadd a b = a + b := by
  have ha : (a.den : ℚ) ≠ 0 := by exact_mod_cast a.den_nz
  have hb : (b.den : ℚ) ≠ 0 := by exact_mod_cast b.den_nz
  rw [qadd, mkRat_eq_div', div_eq_iff (by push_cast; exact mul_ne_zero ha hb)]
  push_cast
  rw [num_eq_mul_den a, num_eq_mul_den b]
  ring

theorem qsub_eq (a b : ℚ) : qsub a b = a - b := by
  have ha : (a.den : ℚ) ≠ 0 := by exact_mod_cast a.den_nz
  have hb : (b.den : ℚ) ≠ 0 := by exact_mod_cast b.den_nz
  rw [qsub, mkRat_eq_div', div_eq_iff (by push_cast; exact mul_ne_zero ha hb)]
  push_cast
  rw [num_eq_mul_den a, num_eq_mul_den b]
  ring

theorem qmul_eq (a b : ℚ) : qmul a b = a * b := (Rat.mul_eq_mkRat a b).symm

theorem qabs_eq (a : ℚ) : qabs a = |a| := by
  rw [qabs, mkRat_eq_div']
  have ha : (0:ℚ) < a.den := by exact_mod_cast a.pos
  rw [Int.cast_natAbs]
  conv_rhs => rw [← Rat.num_div_den a, abs_div]
  rw [abs_of_pos ha]
  norm_num

theorem qdivNat_eq (a : ℚ) (k : Nat) : qdivNat a k = a / (k : ℚ) := by
  rw [qdivNat, mkRat_eq_div']
  push_cast
  rw [div_mul_eq_div_div]
  conv_rhs => rw [← Rat.num_div_den a]

/- ----------------------------------------------------------------------
List and parser helper lemmas (used by the C5 theorems).
---------------------------------------------------------------------- -/

theorem takeWhile_of_all {p : Char → Bool} :
    ∀ l : List Char, l.all p = true → l.takeWhile p = l
  | [], _ => rfl
  | c :: cs, h => by
    simp only [List.all_cons, Bool.and_eq_true] at h
    rw [List.takeWhile_cons_of_pos h.1, takeWhile_of_all cs h.2]

theorem dropWhile_of_all {p : Char → Bool} :
    ∀ l : List Char, l.all p = true → l.dropWhile p = []
  | [], _ => rfl
  | c :: cs, h => by
    simp only [List.all_cons, Bool.and_eq_true] at h
    rw [List.dropWhile_cons_of_pos h.1, dropWhile_of_all cs h.2]

theorem takeWhile_append_of_all {p : Char → Bool} :
    ∀ l r : List Char, l.all p = true → (l ++ r).takeWhile p = l ++ r.takeWhile p
  | [], r, _ => rfl
  | c :: cs, r, h => by
    simp only [List.all_cons, Bool.and_eq_true] at h
    rw [List.cons_append, List.takeWhile_cons_of_pos h.1,
      takeWhile_append_of_all cs r h.2, List.cons_append]

theorem dropWhile_append_of_all {p : Char → Bool} :
    ∀ l r : List Char, l.all p = true → (l ++ r).dropWhile p = r.dropWhile p
  | [], r, _ => rfl
  | c :: cs, r, h => by
    simp only [List.all_cons, Bool.and_eq_true] at h
    rw [List.cons_append, List.dropWhile_cons_of_pos h.1, dropWhile_append_of_all cs r h.2]

theorem head_sat_of_all {p : Char → Bool} {l : List Char} {c : Char}
    (h : l.all p = true) (hc : l.head? = some c) : p c = true := by
  cases l with
  | nil => simp at hc
  | cons a as =>
    simp only [List.head?_cons, Option.some.injEq] at hc
    simp only [List.all_cons, Bool.and_eq_true] at h
    rw [← hc]
    exact h.1

theorem dropWhile_of_head_neg {p : Char → Bool} {l : List Char}
    (h : ∀ c, l.head? = some c → p c = false) : l.dropWhile p = l := by
  cases l with
  | nil => rfl
  | cons a as =>
    refine List.dropWhile_cons_of_neg ?_
    rw [h a rfl]
    exact Bool.false_ne_true

theorem stripSpaces_of_all {l : List Char}
    (h : l.all (fun c => ! (c = ' ')) = true) : stripSpaces l = l := by
  rw [stripSpaces]
  have h1 : l.dropWhile (fun c => c = ' ') = l := by
    refine dropWhile_of_head_neg (fun c hc => ?_)
    have := head_sat_of_all h hc
    simpa using this
  have h2 : l.reverse.dropWhile (fun c => c = ' ') = l.reverse := by
    refine dropWhile_of_head_neg (fun c hc => ?_)
    have := head_sat_of_all (l := l.reverse) (by rwa [List.all_reverse]) hc
    simpa using this
  rw [h1, h2, List.reverse_reverse]

theorem digit_all_nospace {l : List Char} (h : l.all Char.isDigit = true) :
    l.all (fun c => ! (c = ' ')) = true := by
  rw [List.all_eq_true] at h ⊢
  intro c hc
  have hd := h c hc
  simp only [Bool.not_eq_true']
  refine decide_eq_false (fun he => ?_)
  rw [he] at hd
  exact absurd hd (by decide)

theorem pyFloat_numericPrefix (ipd fpd : List Char) (hasDot : Bool)
    (hip : ipd.all Char.isDigit = true) (hfp : fpd.all Char.isDigit = true)
    (hne : ipd.length + fpd.length ≠ 0) (hd : hasDot = false → fpd = []) :
    pyFloat (numericPrefix ipd fpd hasDot) = Except.ok (prefixValue ipd fpd) := by
  cases hasDot with
  | false =>
    have hfpd : fpd = [] := hd rfl
    subst hfpd
    have hstrip : stripSpaces ipd = ipd := stripSpaces_of_all (digit_all_nospace hip)
    have hsgn : ¬ (ipd.head? = some '-' ∨ ipd.head? = some '+') := by
      rintro (hcon | hcon) <;>
        exact absurd (head_sat_of_all hip hcon) (by decide)
    have hsgn2 : (decide (ipd.head? = some '-')) = false :=
      decide_eq_false (fun hcon => hsgn (Or.inl hcon))
    have htd : takeDigits ipd = (ipd, []) := by
      rw [takeDigits, takeWhile_of_all ipd hip, dropWhile_of_all ipd hip]
    have hipne : ipd ≠ [] := by
      intro he
      exact hne (by simp [he])
    have hlit : pyFloatLit ipd = some (prefixValue ipd []) := by
      rw [pyFloatLit]
      simp only [hstrip, hsgn2, if_neg hsgn, htd]
      simp [prefixValue, digitsToNat, hne, hipne]
    have hnp : numericPrefix ipd [] false = ipd := by
      rw [numericPrefix, if_neg Bool.false_ne_true]
    rw [hnp, pyFloat, hlit]
  | true =>
    have hp : numericPrefix ipd fpd true = ipd ++ '.' :: fpd := by
      rw [numericPrefix, if_pos rfl]
    have hall : (ipd ++ '.' :: fpd).all (fun c => ! (c = ' ')) = true := by
      rw [List.all_append, Bool.and_eq_true]
      refine ⟨digit_all_nospace hip, ?_⟩
      rw [List.all_cons, Bool.and_eq_true]
      exact ⟨by decide, digit_all_nospace hfp⟩
    have hstrip : stripSpaces (ipd ++ '.' :: fpd) = ipd ++ '.' :: fpd :=
      stripSpaces_of_all hall
    have hheads : ∀ c, (ipd ++ '.' :: fpd).head? = some c → (c.isDigit || c = '.') = true := by
      intro c hc
      cases ipd with
      | nil =>
        simp only [List.nil_append, List.head?_cons, Option.some.injEq] at hc
        rw [← hc]
        decide
      | cons a as =>
        simp only [List.cons_append, List.head?_cons, Option.some.injEq] at hc
        have ha : a.isDigit = true := by
          have h2 := hip
          simp only [List.all_cons, Bool.and_eq_true] at h2
          exact h2.1
        rw [← hc]
        simp [ha]
    have hsgn : ¬ ((ipd ++ '.' :: fpd).head? = some '-' ∨
        (ipd ++ '.' :: fpd).head? = some '+') := by
      rintro (hcon | hcon) <;>
        exact absurd (hheads _ hcon) (by decide)
    have hsgn2 : (decide ((ipd ++ '.' :: fpd).head? = some '-')) = false :=
      decide_eq_false (fun hcon => hsgn (Or.inl hcon))
    have htd : takeDigits (ipd ++ '.' :: fpd) = (ipd, '.' :: fpd) := by
      rw [takeDigits, takeWhile_append_of_all ipd _ hip, dropWhile_append_of_all ipd _ hip,
        List.takeWhile_cons_of_neg (by decide), List.dropWhile_cons_of_neg (by decide),
        List.append_nil]
    have htd2 : takeDigits fpd = (fpd, []) := by
      rw [takeDigits, takeWhile_of_all fpd hfp, dropWhile_of_all fpd hfp]
    have hne2 : ¬ (ipd = [] ∧ fpd = []) := by
      rintro ⟨h1, h2⟩
      exact hne (by simp [h1, h2])
    have hlit : pyFloatLit (ipd ++ '.' :: fpd) = some (prefixValue ipd fpd) := by
      rw [pyFloatLit]
      simp only [hstrip, hsgn2, if_neg hsgn, htd]
      simp [htd2, prefixValue, digitsToNat, hne, hne2]
    rw [hp, pyFloat, hlit]

theorem prefix_all_digitDot (ipd fpd : List Char) (hasDot : Bool)
    (hip : ipd.all Char.isDigit = true) (hfp : fpd.all Char.isDigit = true) :
    (numericPrefix ipd fpd hasDot).all isDigitDot = true := by
  have hip2 : ipd.all isDigitDot = true := by
    rw [List.all_eq_true] at hip ⊢
    intro c hc
    simp [isDigitDot, hip c hc]
  have hfp2 : fpd.all isDigitDot = true := by
    rw [List.all_eq_true] at hfp ⊢
    intro c hc
    simp [isDigitDot, hfp c hc]
  cases hasDot with
  | false =>
    rw [numericPrefix, if_neg Bool.false_ne_true]
    exact hip2
  | true =>
    rw [numericPrefix, if_pos rfl, List.all_append, Bool.and_eq_true]
    refine ⟨hip2, ?_⟩
    rw [List.all_cons, Bool.and_eq_true]
    exact ⟨by decide, hfp2⟩

theorem numericPrefix_ne_nil (ipd fpd : List Char) (hasDot : Bool)
    (hne : ipd.length + fpd.length ≠ 0) (hd : hasDot = false → fpd = []) :
    numericPrefix ipd fpd hasDot ≠ [] := by
  cases hasDot with
  | false =>
    rw [numericPrefix, if_neg Bool.false_ne_true]
    intro he
    exact hne (by simp [he, hd rfl])
  | true =>
    rw [numericPrefix, if_pos rfl]
    simp

theorem matchDifficulty_prefix_unit (p : List Char) (u : Option Char)
    (hall : p.all isDigitDot = true) (hpne : p ≠ []) (hu : u ∈ unitSuffixes) :
    matchDifficulty (p ++ unitChars u) = some ⟨p, u⟩ := by
  have hlen : ¬ (p.length = 0) := fun h => hpne (List.length_eq_zero.mp h)
  simp only [unitSuffixes, List.mem_cons, List.not_mem_nil, or_false] at hu
  rcases hu with rfl | rfl | rfl | rfl | rfl
  · simp only [unitChars, List.append_nil, matchDifficulty, takeWhile_of_all p hall]
    rw [if_neg hlen]
    simp [List.drop_length]
  · simp only [unitChars, matchDifficulty, takeWhile_append_of_all p _ hall,
      List.takeWhile_cons_of_neg (by decide : ¬ isDigitDot 'K' = true), List.append_nil]
    rw [if_neg hlen, List.drop_left]
    simp
  · simp only [unitChars, matchDifficulty, takeWhile_append_of_all p _ hall,
      List.takeWhile_cons_of_neg (by decide : ¬ isDigitDot 'M' = true), List.append_nil]
    rw [if_neg hlen, List.drop_left]
    simp
  · simp only [unitChars, matchDifficulty, takeWhile_append_of_all p _ hall,
      List.takeWhile_cons_of_neg (by decide : ¬ isDigitDot 'G' = true), List.append_nil]
    rw [if_neg hlen, List.drop_left]
    simp
  · simp only [unitChars, matchDifficulty, takeWhile_append_of_all p _ hall,
      List.takeWhile_cons_of_neg (by decide : ¬ isDigitDot 'T' = true), List.append_nil]
    rw [if_neg hlen, List.drop_left]
    simp

theorem parse_difficulty_prefix_unit (ipd fpd : List Char) (hasDot : Bool) (u : Option Char)
    (hip : ipd.all Char.isDigit = true) (hfp : fpd.all Char.isDigit = true)
    (hne : ipd.length + fpd.length ≠ 0) (hd : hasDot = false → fpd = [])
    (hu : u ∈ unitSuffixes) :
    _parse_difficulty (some (numericPrefix ipd fpd hasDot ++ unitChars u)) =
      Except.ok (qmul (prefixValue ipd fpd) (unitMult u)) := by
  have hall := prefix_all_digitDot ipd fpd hasDot hip hfp
  have hpne := numericPrefix_ne_nil ipd fpd hasDot hne hd
  have hm := matchDifficulty_prefix_unit _ u hall hpne hu
  have hf := pyFloat_numericPrefix ipd fpd hasDot hip hfp hne hd
  have hslen : ¬ ((numericPrefix ipd fpd hasDot ++ unitChars u).length = 0) := by
    rw [List.length_append]
    intro h
    exact hpne (List.length_eq_zero.mp (by omega))
  rw [_parse_difficulty, if_neg hslen, hm]
  simp only [hf]
  rfl

/- ----------------------------------------------------------------------
Exception-propagation helper lemmas (used by the C6, C7 and C9
theorems).
---------------------------------------------------------------------- -/

theorem ok_bind {ε α β : Type} (a : α) (f : α → Except ε β) :
    (Except.ok a >>= f) = f a := rfl

theorem error_bind {ε α β : Type} (e : ε) (f : α → Except ε β) :
    ((Except.error e : Except ε α) >>= f) = Except.error e := rfl

theorem bind_error_elim {ε α β : Type} {x : Except ε α} {f : α → Except ε β} {e : ε}
    (h : (x >>= f) = Except.error e) :
    x = Except.error e ∨ ∃ a, x = Except.ok a ∧ f a = Except.error e := by
  cases x with
  | ok a => exact Or.inr ⟨a, rfl, h⟩
  | error e2 =>
    rw [error_bind] at h
    injection h with h2
    rw [h2]
    exact Or.inl rfl

theorem pyFloat_error {s : List Char} {e : PyErr} (h : pyFloat s = Except.error e) :
    e = PyErr.valueError := by
  rw [pyFloat] at h
  cases hl : pyFloatLit s with
  | some v => rw [hl] at h; exact absurd h (by simp)
  | none => rw [hl] at h; injection h with h1; exact h1.symm

theorem pyIndex_error {l : List (List Char)} {i : Nat} {e : PyErr}
    (h : pyIndex l i = Except.error e) : e = PyErr.indexError := by
  rw [pyIndex] at h
  cases hg : l.get? i with
  | some x => rw [hg] at h; exact absurd h (by simp)
  | none => rw [hg] at h; injection h with h1; exact h1.symm

theorem pyIntDigits_error {s : List Char} {e : PyErr}
    (h : pyIntDigits s = Except.error e) : e = PyErr.valueError := by
  rw [pyIntDigits] at h
  split at h
  · exact absurd h (by simp)
  · injection h with h1; exact h1.symm

theorem catchClasses_ok {α : Type} (classes : List PyErr) (x : Except PyErr α) (dflt : α)
    (h : ∀ e, x = Except.error e → e ∈ classes) :
    ∃ v, catchClasses classes x dflt = Except.ok v := by
  cases x with
  | ok v => exact ⟨v, rfl⟩
  | error e =>
    refine ⟨dflt, ?_⟩
    simp only [catchClasses]
    rw [if_pos (h e rfl)]

theorem hashrate_mhs_ok (mhs_str : List Char) :
    ∃ v, _parse_hashrate_mhs mhs_str = Except.ok v := by
  rw [_parse_hashrate_mhs]
  refine catchClasses_ok _ _ _ (fun e he => ?_)
  rcases bind_error_elim he with hx | ⟨a, _, hf⟩
  · rw [pyFloat_error hx]; decide
  · exact absurd hf (by simp)

theorem temperature_from_stats_ok (stats_info : StatsDict) :
    ∃ v, _parse_temperature_from_stats stats_info = Except.ok v := by
  rw [_parse_temperature_from_stats]
  refine catchClasses_ok _ _ _ (fun e he => ?_)
  split at he
  · split at he
    · rw [pyFloat_error he]; decide
    · split at he
      · rw [pyFloat_error he]; decide
      · exact absurd he (by simp)
  · split at he
    · rw [pyFloat_error he]; decide
    · exact absurd he (by simp)

theorem mpoAta2Fallback_error {mm : List Char} {e : PyErr}
    (h : mpoAta2Fallback mm = Except.error e) :
    e ∈ [PyErr.valueError, PyErr.typeError, PyErr.indexError] := by
  rw [mpoAta2Fallback] at h
  split at h
  · rw [pyFloat_error h]; decide
  · split at h
    · simp only [] at h
      split at h
      · rcases bind_error_elim h with hx | ⟨a, _, hf⟩
        · rw [pyIndex_error hx]; decide
        · rw [pyFloat_error hf]; decide
      · exact absurd h (by simp)
    · exact absurd h (by simp)

theorem power_from_stats_ok (stats_info : StatsDict) :
    ∃ v, _parse_power_from_stats stats_info = Except.ok v := by
  rw [_parse_power_from_stats]
  refine catchClasses_ok _ _ _ (fun e he => ?_)
  split at he
  · simp only [] at he
    split at he
    · rcases bind_error_elim he with hx | ⟨a, _, hf⟩
      · rw [pyIndex_error hx]; decide
      · rw [pyFloat_error hf]; decide
    · exact mpoAta2Fallback_error he
  · exact mpoAta2Fallback_error he

theorem fan_speed_from_stats_ok (stats_info : StatsDict) :
    ∃ v, _parse_fan_speed_from_stats stats_info = Except.ok v := by
  rw [_parse_fan_speed_from_stats]
  refine catchClasses_ok _ _ _ (fun e he => ?_)
  split at he
  · rw [pyIntDigits_error he]; decide
  · exact absurd he (by simp)

theorem frequency_from_stats_ok (stats_info : StatsDict) :
    ∃ v, _parse_frequency_from_stats stats_info = Except.ok v := by
  rw [_parse_frequency_from_stats]
  refine catchClasses_ok _ _ _ (fun e he => ?_)
  split at he
  · rw [pyFloat_error he]; decide
  · exact absurd he (by simp)

theorem voltage_from_stats_ok (stats_info : StatsDict) :
    ∃ v, _parse_voltage_from_stats stats_info = Except.ok v := by
  rw [_parse_voltage_from_stats]
  refine catchClasses_ok _ _ _ (fun e he => ?_)
  split at he
  · simp only [] at he
    split at he
    · exact absurd he (by simp)
    · rcases bind_error_elim he with hx | ⟨a, _, hf⟩
      · rw [pyIndex_error hx]; decide
      · rcases bind_error_elim hf with hx2 | ⟨b, _, hf2⟩
        · rw [pyFloat_error hx2]; decide
        · exact absurd hf2 (by simp)
  · exact absurd he (by simp)

theorem memory_usage_from_stats_ok (stats_info : StatsDict) :
    ∃ v, _parse_memory_usage_from_stats stats_info = Except.ok v := by
  rw [_parse_memory_usage_from_stats]
  refine catchClasses_ok _ _ _ (fun e he => ?_)
  split at he
  · rcases bind_error_elim he with hx | ⟨a, _, hf⟩
    · rw [pyFloat_error hx]; decide
    · exact absurd hf (by simp)
  · exact absurd he (by simp)

theorem collect_device_data_ok (fetch persist statusConn : String → Except String Unit)
    (d : Device) (h : statusConn d.device_id = Except.ok ()) :
    collect_device_data fetch persist statusConn d =
      Except.ok (deviceSteps fetch persist d) := by
  rw [collect_device_data, deviceSteps, h]
  cases hf : fetch d.device_id with
  | error e => rfl
  | ok u =>
    cases hp : persist d.device_id with
    | error e => rfl
    | ok u2 => rfl

theorem collect_all_devices_go (fetch persist statusConn : String → Except String Unit) :
    ∀ (devices : List Device) (acc : List CollectStep),
      (∀ d ∈ devices, statusConn d.device_id = Except.ok ()) →
      devices.foldlM
          (fun acc d =>
            (collect_device_data fetch persist statusConn d).map
              (fun steps => acc ++ steps)) acc =
        Except.ok (acc ++ devices.flatMap (deviceSteps fetch persist))
  | [], acc, _ => by
    simp
    rfl
  | d :: ds, acc, h => by
    rw [List.foldlM_cons,
      collect_device_data_ok fetch persist statusConn d (h d (List.mem_cons_self d ds))]
    have hmap : (Except.ok (deviceSteps fetch persist d) :
        Except String (List CollectStep)).map (fun steps => acc ++ steps) =
        Except.ok (acc ++ deviceSteps fetch persist d) := rfl
    rw [hmap, ok_bind,
      collect_all_devices_go fetch persist statusConn ds (acc ++ deviceSteps fetch persist d)
        (fun d2 hd2 => h d2 (List.mem_cons_of_mem _ hd2))]
    rw [List.flatMap_cons, List.append_assoc]

theorem stepDevice_deviceSteps (fetch persist : String → Except String Unit) (d : Device) :
    ∀ st ∈ deviceSteps fetch persist d, stepDevice st = d.device_id := by
  intro st hst
  rw [deviceSteps] at hst
  cases hf : fetch d.device_id with
  | error e =>
    rw [hf] at hst
    simp only [List.mem_singleton] at hst
    rw [hst]
    rfl
  | ok u =>
    rw [hf] at hst
    cases hp : persist d.device_id with
    | error e =>
      rw [hp] at hst
      simp only [List.mem_cons, List.not_mem_nil, or_false] at hst
      rcases hst with rfl | rfl
      · rfl
      · rfl
    | ok u2 =>
      rw [hp] at hst
      simp only [List.mem_cons, List.not_mem_nil, or_false] at hst
      rcases hst with rfl | rfl
      · rfl
      · rfl

/- ----------------------------------------------------------------------
Theorems for claims C1, C2, C8, C10.
---------------------------------------------------------------------- -/

/-- C1: the claim states the offline/online transitions are edge-triggered,
with the stored status updated atomically with the comparison, so that an
online→offline→online sequence emits exactly one offline and one online
alert and repeated failures while already offline emit nothing.  The code
violates this: the UPDATE in `update_device_status` never writes
`is_active`, so from a stored-active device the poll sequence
success, failure, success emits one offline alert and zero online alerts,
and success, failure, failure, success emits two offline alerts — in both
families. -/
theorem C1_status_updates_not_edge_triggered :
    countOffline (runBitaxePolls activeDeviceTable "bitaxe1" [true, false, true]).2 = 1 ∧
    countOnline (runBitaxePolls activeDeviceTable "bitaxe1" [true, false, true]).2 = 0 ∧
    countOffline (runBitaxePolls activeDeviceTable "bitaxe1" [true, false, false, true]).2 = 2 ∧
    countOnline (runBitaxePolls activeDeviceTable "bitaxe1" [true, false, false, true]).2 = 0 ∧
    countOffline (runAvalonPolls activeDeviceTable "bitaxe1" [true, false, true]).2 = 1 ∧
    countOnline (runAvalonPolls activeDeviceTable "bitaxe1" [true, false, true]).2 = 0 ∧
    countOffline (runAvalonPolls activeDeviceTable "bitaxe1" [true, false, false, true]).2 = 2 ∧
    countOnline (runAvalonPolls activeDeviceTable "bitaxe1" [true, false, false, true]).2 = 0 := by
  decide

/-- C2: the claim states that when the optional fields `overheat_mode`,
`rotation` and `displayTimeout` are entirely absent from the payload the
persisted values equal the documented defaults 0, 0 and -1.  The code
violates this: `collect_device_data` forwards `dict.get` results with no
default, so an empty payload produces `None` (SQL NULL) for all three
INSERT parameters, never the defaults that `models.py` documents. -/
theorem C2_missing_optional_fields_forwarded_as_none :
    bitaxeSystemInfoParams [] =
      { overheat_mode := none, display_rotation := none, display_timeout := none } ∧
    bitaxeSystemInfoParams [("hashRate", 500), ("power", 15)] =
      { overheat_mode := none, display_rotation := none, display_timeout := none } ∧
    overheat_mode_default = 0 ∧
    display_rotation_default = 0 ∧
    display_timeout_default = -1 ∧
    (bitaxeSystemInfoParams []).overheat_mode ≠ some overheat_mode_default ∧
    (bitaxeSystemInfoParams []).display_rotation ≠ some display_rotation_default ∧
    (bitaxeSystemInfoParams []).display_timeout ≠ some display_timeout_default := by
  decide

/-- C8: the derived efficiency equals `power_w / (hashrate_ghs / 1000)`
= `power_w * 1000 / hashrate_ghs` whenever `hashrate_ghs > 0`, equals 0
whenever `hashrate_ghs ≤ 0`, and scaling power by `k` scales efficiency
by `k`. -/
theorem C8_efficiency (power_w hashrate_ghs k : ℚ) :
    (0 < hashrate_ghs → efficiency power_w hashrate_ghs = power_w * 1000 / hashrate_ghs) ∧
    (hashrate_ghs ≤ 0 → efficiency power_w hashrate_ghs = 0) ∧
    efficiency (k * power_w) hashrate_ghs = k * efficiency power_w hashrate_ghs := by
  refine ⟨fun h => ?_, fun h => ?_, ?_⟩
  · rw [efficiency, if_pos h, div_div_eq_mul_div]
  · rw [efficiency, if_neg (not_lt.mpr h)]
  · by_cases h : 0 < hashrate_ghs
    · rw [efficiency, efficiency, if_pos h, if_pos h, mul_div_assoc]
    · rw [efficiency, efficiency, if_neg h, if_neg h, mul_zero]

/-- Witness for C8 at power 10 W, hashrate 500 GH/s, k = 2
(and hashrate -3 for the non-positive branch). -/
theorem C8_efficiency_witness :
    efficiency 10 500 = 10 * 1000 / 500 ∧
    efficiency 10 (-3) = 0 ∧
    efficiency (2 * 10) 500 = 2 * efficiency 10 500 :=
  ⟨(C8_efficiency 10 500 2).1 (by norm_num),
   (C8_efficiency 10 (-3) 2).2.1 (by norm_num),
   (C8_efficiency 10 500 2).2.2⟩

/-- C10: when `device_id` has no row in the devices table,
`update_device_status` is a complete no-op in both families: the table is
unchanged and no alert is emitted, for every poll outcome. -/
theorem C10_missing_device_is_noop (db : DeviceTable) (now : Nat) (device_id : String)
    (is_online : Bool) (error_message : String)
    (h : deviceLookup db device_id = none) :
    Bitaxe.update_device_status db now device_id is_online error_message = (db, []) ∧
    Avalon.update_device_status db now device_id is_online error_message = (db, []) := by
  rw [Bitaxe.update_device_status, Avalon.update_device_status, h]
  exact ⟨rfl, rfl⟩

/-- Witness for C10: an unregistered device id against a non-empty table. -/
theorem C10_missing_device_is_noop_witness :
    Bitaxe.update_device_status activeDeviceTable 7 "ghost" false "timeout" =
      (activeDeviceTable, []) ∧
    Avalon.update_device_status activeDeviceTable 7 "ghost" false "timeout" =
      (activeDeviceTable, []) :=
  C10_missing_device_is_noop activeDeviceTable 7 "ghost" false "timeout" (by decide)

/-- C3 counterexample: the claim states that a "first best" AlertEvent is
emitted (in either family) when the previous stored best is 0 and the
current one is positive; the JSON/HTTP-family check emits nothing in that
situation — here the device's very first positive best difficulty 10. -/
theorem C3_counterexample :
    Bitaxe.check_best_difficulty_improvement [10] "dev" "dev" 10 = [] ∧
    (0 : ℚ) < 10 := by
  decide

/-- C3 amended: after a sample with positive best-difficulty `current`
is inserted: the JSON/HTTP family, whose check runs after its commit and
so sees `rows = current :: old`, compares against the most recent prior
positive stored value `p` and emits one improvement alert iff `p > 0`
and `(current - p)/p ≥ 0.05`, emitting nothing when `p = 0` (it has no
"first best" variant); the text/socket family's check runs before its
insert is committed and on a separate connection, so over the committed
rows `old` it compares against the SECOND most recent prior positive
stored value `q`: it emits one improvement alert iff `q > 0` and
`(current - q)/q ≥ 0.05`, and emits the first-best alert (the same
event with previous 0) iff fewer than two prior positive values exist —
in particular it re-fires on a device's second positive sample; both
families emit nothing for a non-positive current value. -/
theorem C3_amended_behavior (old : List ℚ) (d n : String) (current : ℚ)
    (hc : 0 < current) :
    (Bitaxe.check_best_difficulty_improvement (current :: old) d n current =
      if 0 < mostRecentPriorPositiveBest old ∧
          5/100 ≤ (current - mostRecentPriorPositiveBest old) / mostRecentPriorPositiveBest old
      then [AlertEvent.bestDifficulty d current (mostRecentPriorPositiveBest old)]
      else []) ∧
    (Avalon.check_best_difficulty_improvement old d n current =
      if 0 < secondMostRecentPriorPositiveBest old then
        (if 5/100 ≤ (current - secondMostRecentPriorPositiveBest old) /
            secondMostRecentPriorPositiveBest old
         then [AlertEvent.bestDifficulty d current (secondMostRecentPriorPositiveBest old)]
         else [])
      else [AlertEvent.bestDifficulty d current 0]) ∧
    (∀ rows c, c ≤ 0 →
      Bitaxe.check_best_difficulty_improvement rows d n c = [] ∧
      Avalon.check_best_difficulty_improvement rows d n c = []) := by
  have hfilter : (current :: old).filter (fun r => decide (0 < r)) =
      current :: old.filter (fun r => decide (0 < r)) :=
    List.filter_cons_of_pos (by simpa using hc)
  set p := mostRecentPriorPositiveBest old with hp
  have hprev : ((((current :: old).filter (fun r => decide (0 < r))).drop 1).head?).getD 0 = p := by
    rw [hfilter]
    rfl
  have hcases : p = 0 ∨ 0 < p := by
    rw [hp, mostRecentPriorPositiveBest]
    cases h : (old.filter (fun r => decide (0 < r))).head? with
    | none => exact Or.inl rfl
    | some x =>
      refine Or.inr ?_
      have hx : x ∈ old.filter (fun r => decide (0 < r)) := List.mem_of_mem_head? h
      have := List.of_mem_filter hx
      simpa using this
  have hthresh : ∀ q : ℚ, 0 < q →
      ((5 ≤ ((current - q) / q) * 100) ↔ (5/100 ≤ (current - q) / q)) := by
    intro q _
    rw [div_le_iff₀ (by norm_num : (0:ℚ) < 100)]
  refine ⟨?_, ?_, ?_⟩
  · rw [Bitaxe.check_best_difficulty_improvement]
    simp only [hprev]
    rcases hcases with h0 | hpos
    · rw [h0]
      simp
    · rw [if_pos ⟨hc, hpos⟩]
      by_cases him : 5/100 ≤ (current - p) / p
      · rw [if_pos ((hthresh p hpos).mpr him), if_pos ⟨hpos, him⟩]
      · rw [if_neg (fun hcontra => him ((hthresh p hpos).mp hcontra)),
          if_neg (fun hcontra => him hcontra.2)]
  · rw [Avalon.check_best_difficulty_improvement]
    set q := secondMostRecentPriorPositiveBest old with hq
    have hprev2 : (((old.filter (fun r => decide (0 < r))).drop 1).head?).getD 0 = q := rfl
    have hqcases : q = 0 ∨ 0 < q := by
      rw [hq, secondMostRecentPriorPositiveBest]
      cases h : ((old.filter (fun r => decide (0 < r))).drop 1).head? with
      | none => exact Or.inl rfl
      | some x =>
        refine Or.inr ?_
        have hx : x ∈ (old.filter (fun r => decide (0 < r))).drop 1 :=
          List.mem_of_mem_head? h
        have hx2 : x ∈ old.filter (fun r => decide (0 < r)) :=
          List.drop_subset _ _ hx
        have := List.of_mem_filter hx2
        simpa using this
    simp only [hprev2]
    rcases hqcases with h0 | hpos
    · rw [h0]
      simp [hc]
    · rw [if_pos ⟨hc, hpos⟩, if_pos hpos]
      by_cases him : 5/100 ≤ (current - q) / q
      · rw [if_pos ((hthresh q hpos).mpr him), if_pos him]
      · rw [if_neg (fun hcontra => him ((hthresh q hpos).mp hcontra)), if_neg him]
  · intro rows c hcn
    have h1 : ¬ (0 < c ∧
        0 < ((((rows.filter (fun r => decide (0 < r))).drop 1).head?).getD 0)) :=
      fun hcontra => absurd hcontra.1 (not_lt.mpr hcn)
    have h2 : ¬ (0 < c ∧
        ((((rows.filter (fun r => decide (0 < r))).drop 1).head?).getD 0) = 0) :=
      fun hcontra => absurd hcontra.1 (not_lt.mpr hcn)
    constructor
    · rw [Bitaxe.check_best_difficulty_improvement, if_neg h1]
    · rw [Avalon.check_best_difficulty_improvement, if_neg h1, if_neg h2]

/-- Witness for C3.  Bitaxe (committed history now `[106, 100]`): the
6% improvement fires with previous 100.  Avalon with committed history
`[100]` and new best 106: because its query cannot see the uncommitted
106, the first-best alert re-fires with previous 0 even though a prior
positive record exists.  Avalon with committed history `[104, 100]` and
new best 106: the comparison baseline is 100 (the second most recent),
so the alert fires although the improvement over the true immediately
preceding value 104 is below 5%. -/
theorem C3_amended_behavior_witness :
    Bitaxe.check_best_difficulty_improvement [106, 100] "d" "n" 106 =
      [AlertEvent.bestDifficulty "d" 106 100] ∧
    Avalon.check_best_difficulty_improvement [100] "d" "n" 106 =
      [AlertEvent.bestDifficulty "d" 106 0] ∧
    Avalon.check_best_difficulty_improvement [104, 100] "d" "n" 106 =
      [AlertEvent.bestDifficulty "d" 106 100] := by
  have h1 := (C3_amended_behavior [100] "d" "n" 106 (by norm_num)).1
  have h2 := (C3_amended_behavior [100] "d" "n" 106 (by norm_num)).2.1
  have h3 := (C3_amended_behavior [104, 100] "d" "n" 106 (by norm_num)).2.1
  have hm : mostRecentPriorPositiveBest [100] = 100 := by decide
  have hs : secondMostRecentPriorPositiveBest [100] = 0 := by decide
  have hs2 : secondMostRecentPriorPositiveBest [104, 100] = 100 := by decide
  refine ⟨?_, ?_, ?_⟩
  · rw [h1, hm, if_pos ⟨by norm_num, by norm_num⟩]
  · rw [h2, hs, if_neg (lt_irrefl 0)]
  · rw [h3, hs2, if_pos (by norm_num : (0:ℚ) < 100), if_pos (by norm_num)]

/-- C4 counterexample: the claim states the stagnation alert fires iff
all 3 fetched hashrates are mutually within the family tolerance; the
code only compares each value against the newest one, so it fires on
samples 5.0, 5.09, 4.91 GH/s (bitaxe, tolerance 0.1) and on 5.0, 5.009,
4.991 (avalon, tolerance 0.01) although the outer two values differ by
far more than the tolerance. -/
theorem C4_counterexample :
    Bitaxe.check_hashrate_stagnation [5, mkRat 509 100, mkRat 491 100] "dev" 5 ≠ [] ∧
    mutuallyWithin (mkRat 1 10) [5, mkRat 509 100, mkRat 491 100] = false ∧
    Avalon.check_hashrate_stagnation [5, mkRat 5009 1000, mkRat 4991 1000] "dev" 5 ≠ [] ∧
    mutuallyWithin (mkRat 1 100) [5, mkRat 5009 1000, mkRat 4991 1000] = false := by
  decide

/-- C4 amended: with at least 3 stored samples (newest first
`r0, r1, r2, …`) the check emits exactly one stagnation alert plus one
restart attempt iff both older fetched values are strictly within the
family tolerance of the newest one (0.1 GH/s for the JSON/HTTP family,
0.01 GH/s for the text/socket family); with fewer than 3 samples nothing
is emitted. -/
theorem C4_amended_behavior (r0 r1 r2 : ℚ) (rest : List ℚ) (d : String) (c : ℚ) :
    (Bitaxe.check_hashrate_stagnation (r0 :: r1 :: r2 :: rest) d c =
      if |r1 - r0| < 1/10 ∧ |r2 - r0| < 1/10 then
        [AlertEvent.hashrateStagnation d c, AlertEvent.deviceRestart d]
      else []) ∧
    (Avalon.check_hashrate_stagnation (r0 :: r1 :: r2 :: rest) d c =
      if |r1 - r0| < 1/100 ∧ |r2 - r0| < 1/100 then
        [AlertEvent.hashrateStagnation d c, AlertEvent.deviceRestart d]
      else []) ∧
    (∀ rows : List ℚ, rows.length < 3 →
      Bitaxe.check_hashrate_stagnation rows d c = [] ∧
      Avalon.check_hashrate_stagnation rows d c = []) := by
  have htake : (r0 :: r1 :: r2 :: rest).take 3 = [r0, r1, r2] := by
    simp [List.take]
  have htol10 : mkRat 1 10 = (1 : ℚ)/10 := by rw [mkRat_eq_div']; norm_num
  have htol100 : mkRat 1 100 = (1 : ℚ)/100 := by rw [mkRat_eq_div']; norm_num
  refine ⟨?_, ?_, ?_⟩
  · rw [Bitaxe.check_hashrate_stagnation]
    simp only [htake]
    rw [if_pos (by simp)]
    have hall : ([r0, r1, r2].all
        (fun hr => decide (qabs (qsub hr ([r0, r1, r2].headI)) < mkRat 1 10))) = true ↔
        (|r1 - r0| < 1/10 ∧ |r2 - r0| < 1/10) := by
      simp only [List.all_cons, List.all_nil, Bool.and_eq_true, decide_eq_true_eq,
        List.headI, qabs_eq, qsub_eq, htol10, sub_self, abs_zero, Bool.and_true,
        and_true]
      exact and_iff_right (by norm_num)
    by_cases h : |r1 - r0| < 1/10 ∧ |r2 - r0| < 1/10
    · rw [if_pos (hall.mpr h), if_pos h]
    · rw [if_neg (fun hc2 => h (hall.mp hc2)), if_neg h]
  · rw [Avalon.check_hashrate_stagnation]
    simp only [htake]
    rw [if_pos (by simp)]
    have hall : ([r0, r1, r2].all
        (fun hr => decide (qabs (qsub hr ([r0, r1, r2].headI)) < mkRat 1 100))) = true ↔
        (|r1 - r0| < 1/100 ∧ |r2 - r0| < 1/100) := by
      simp only [List.all_cons, List.all_nil, Bool.and_eq_true, decide_eq_true_eq,
        List.headI, qabs_eq, qsub_eq, htol100, sub_self, abs_zero, Bool.and_true,
        and_true]
      exact and_iff_right (by norm_num)
    by_cases h : |r1 - r0| < 1/100 ∧ |r2 - r0| < 1/100
    · rw [if_pos (hall.mpr h), if_pos h]
    · rw [if_neg (fun hc2 => h (hall.mp hc2)), if_neg h]
  · intro rows hlen
    have hshort : ¬ 3 ≤ (rows.take 3).length := by
      rw [List.length_take]
      omega
    constructor
    · rw [Bitaxe.check_hashrate_stagnation, if_neg hshort]
    · rw [Avalon.check_hashrate_stagnation, if_neg hshort]

/-- Witness for C4: three equal samples fire alert-plus-restart in both
families; two samples fire nothing. -/
theorem C4_amended_behavior_witness :
    Bitaxe.check_hashrate_stagnation [5, 5, 5] "d" 5 =
      [AlertEvent.hashrateStagnation "d" 5, AlertEvent.deviceRestart "d"] ∧
    Avalon.check_hashrate_stagnation [5, 5, 5] "d" 5 =
      [AlertEvent.hashrateStagnation "d" 5, AlertEvent.deviceRestart "d"] ∧
    Bitaxe.check_hashrate_stagnation [5, 5] "d" 5 = [] := by
  have h := C4_amended_behavior 5 5 5 [] "d" 5
  have habs : |(5:ℚ) - 5| = 0 := by rw [sub_self, abs_zero]
  refine ⟨?_, ?_, (h.2.2 [5, 5] (by decide)).1⟩
  · rw [h.1, if_pos ⟨by rw [habs]; norm_num, by rw [habs]; norm_num⟩]
  · rw [h.2.1, if_pos ⟨by rw [habs]; norm_num, by rw [habs]; norm_num⟩]

/-- C5 counterexample: the claim states the parser returns without
raising for every input string; on `".."` the regex group `[\d.]+`
matches but `float("..")` raises `ValueError`, so the parser raises
rather than returning 0.0. -/
theorem C5_counterexample :
    _parse_difficulty (some (".." : String).toList) = Except.error PyErr.valueError ∧
    _parse_difficulty (some ("1.2.3" : String).toList) = Except.error PyErr.valueError := by
  decide

/-- C5 amended: for every input whose maximal leading `[\d.]` run is a
valid float literal — integer digits `ipd`, optional dot, fraction
digits `fpd`, at least one digit in all — followed by a suffix in
{`""`, `K`, `M`, `G`, `T`}, the parser returns `value * multiplier`
without raising, where `value ≥ 0` is the float value of the prefix and
the multipliers are 1, 1e3, 1e6, 1e9, 1e12; the result is monotone in
the multiplier ordering; an absent string, or one not starting with a
digit or dot, yields 0.0.  (A leading run that is not a valid float
literal, such as `".."`, raises `ValueError` instead — see the
counterexample.) -/
theorem C5_amended_parse_behavior (ipd fpd : List Char) (hasDot : Bool) (u1 u2 : Option Char)
    (hip : ipd.all Char.isDigit = true) (hfp : fpd.all Char.isDigit = true)
    (hne : ipd.length + fpd.length ≠ 0) (hd : hasDot = false → fpd = [])
    (hu1 : u1 ∈ unitSuffixes) (hu2 : u2 ∈ unitSuffixes)
    (hmono : unitMult u1 ≤ unitMult u2) :
    pyFloat (numericPrefix ipd fpd hasDot) = Except.ok (prefixValue ipd fpd) ∧
    0 ≤ prefixValue ipd fpd ∧
    _parse_difficulty (some (numericPrefix ipd fpd hasDot ++ unitChars u1)) =
      Except.ok (prefixValue ipd fpd * unitMult u1) ∧
    _parse_difficulty (some (numericPrefix ipd fpd hasDot ++ unitChars u2)) =
      Except.ok (prefixValue ipd fpd * unitMult u2) ∧
    prefixValue ipd fpd * unitMult u1 ≤ prefixValue ipd fpd * unitMult u2 ∧
    _parse_difficulty none = Except.ok 0 ∧
    (∀ s : List Char, (∀ c, s.head? = some c → isDigitDot c = false) →
      _parse_difficulty (some s) = Except.ok 0) := by
  have hval : 0 ≤ prefixValue ipd fpd := by
    rw [prefixValue, mkRat_eq_div']
    positivity
  refine ⟨pyFloat_numericPrefix ipd fpd hasDot hip hfp hne hd, hval, ?_, ?_, ?_, rfl, ?_⟩
  · rw [parse_difficulty_prefix_unit ipd fpd hasDot u1 hip hfp hne hd hu1, qmul_eq]
  · rw [parse_difficulty_prefix_unit ipd fpd hasDot u2 hip hfp hne hd hu2, qmul_eq]
  · exact mul_le_mul_of_nonneg_left hmono hval
  · intro s hs
    cases s with
    | nil => rfl
    | cons c cs =>
      have hc := hs c rfl
      have hm : matchDifficulty (c :: cs) = none := by
        simp only [matchDifficulty,
          List.takeWhile_cons_of_neg (show ¬ isDigitDot c = true by
            rw [hc]; exact Bool.false_ne_true)]
        rfl
      rw [_parse_difficulty, if_neg (by simp), hm]

/-- Witness for C5: `"22.23"` with suffixes `K` and `M`. -/
theorem C5_amended_parse_behavior_witness :
    _parse_difficulty (some ("22.23K" : String).toList) =
      Except.ok (prefixValue ("22" : String).toList ("23" : String).toList * 1000) ∧
    _parse_difficulty (some ("22.23M" : String).toList) =
      Except.ok (prefixValue ("22" : String).toList ("23" : String).toList * 1000000) ∧
    prefixValue ("22" : String).toList ("23" : String).toList * 1000 ≤
      prefixValue ("22" : String).toList ("23" : String).toList * 1000000 ∧
    prefixValue ("22" : String).toList ("23" : String).toList = 2223/100 := by
  have h := C5_amended_parse_behavior ("22" : String).toList ("23" : String).toList true
    (some 'K') (some 'M') (by decide) (by decide) (by decide) (by decide)
    (by decide) (by decide) (by decide)
  have hv : prefixValue ("22" : String).toList ("23" : String).toList = mkRat 2223 100 := by
    decide
  refine ⟨h.2.2.1, h.2.2.2.1, h.2.2.2.2.1, ?_⟩
  rw [hv, mkRat_eq_div']
  norm_num



/-- C6: for every raw text input — truncated, delimiter-corrupted or
empty — the text/socket decoder (section parsing plus every per-field
extractor) returns without raising an exception; on inputs from which
nothing is recoverable every field resolves to zero.  The empty frame
and a bracket-truncated frame are evaluated concretely. -/
theorem C6_decoder_never_raises :
    (∀ raw : List Char, ∃ m, decodeAvalonStats raw = Except.ok m) ∧
    (∀ s : List Char, ∃ v, _parse_hashrate_mhs s = Except.ok v) ∧
    decodeAvalonStats [] = Except.ok ⟨0, 0, 0, 0, 0, 0⟩ ∧
    decodeAvalonStats ("STATS=0,MM ID0=OTemp[6" : String).toList =
      Except.ok ⟨0, 0, 0, 0, 0, 0⟩ := by
  refine ⟨fun raw => ?_, hashrate_mhs_ok, by decide, by decide⟩
  obtain ⟨t, ht⟩ := temperature_from_stats_ok (_parse_cgminer_response raw)
  obtain ⟨p, hp⟩ := power_from_stats_ok (_parse_cgminer_response raw)
  obtain ⟨fs, hfs⟩ := fan_speed_from_stats_ok (_parse_cgminer_response raw)
  obtain ⟨fr, hfr⟩ := frequency_from_stats_ok (_parse_cgminer_response raw)
  obtain ⟨vo, hvo⟩ := voltage_from_stats_ok (_parse_cgminer_response raw)
  obtain ⟨me, hme⟩ := memory_usage_from_stats_ok (_parse_cgminer_response raw)
  refine ⟨⟨t, p, fs, fr, vo, me⟩, ?_⟩
  simp only [decodeAvalonStats]
  rw [ht, ok_bind, hp, ok_bind, hfs, ok_bind, hfr, ok_bind, hvo, ok_bind, hme, ok_bind]

/-- C7: the claim states the decoded power is the LAST element of the
PS array whatever its length (as the code comments themselves say); the
spec example with a 7-element PS array decodes to temperature 65.0,
power 133.0, fan 1520, frequency 464.89 as claimed — but with an
8-element array `PS[0 0 27541 4 0 3756 133 999]` the code still reads
index 6 (133.0) while the last element is 999, contradicting the
claim. -/
theorem C7_power_is_index6_not_last :
    decodeAvalonStats examplePayload =
      Except.ok ⟨65, 133, 1520, mkRat 46489 100, 0, 0⟩ ∧
    mkRat 46489 100 = (46489 : ℚ)/100 ∧
    _parse_power_from_stats (_parse_cgminer_response examplePayloadPS8) = Except.ok 133 ∧
    (splitWs ((searchBracket ("PS[" : String).toList (fun c => ! (c = ']'))
        (mmId0 (_parse_cgminer_response examplePayloadPS8))).getD [])).getLast? =
      some ("999" : String).toList ∧
    (133 : ℚ) ≠ 999 := by
  refine ⟨by decide, ?_, by decide, by decide, by decide⟩
  rw [mkRat_eq_div']
  norm_num

/-- C9 counterexample: the claim states that any raised exception while
fetching, decoding or persisting never aborts the cycle for the
remaining devices.  But `update_device_status` opens its database
connection before its `try`, so when device "a" is unreachable and the
status-recording connection also fails, the exception raised inside the
except handler escapes `collect_device_data` and the loop aborts: the
cycle errors out and device "b" is never processed. -/
theorem C9_counterexample :
    collect_all_devices
        (fun id => if id = "a" then Except.error "connection timeout" else Except.ok ())
        (fun _ => Except.ok ())
        (fun _ => Except.error "could not connect to server")
        [⟨"a", "10.0.0.1"⟩, ⟨"b", "10.0.0.2"⟩] =
      Except.error "could not connect to server" := by
  decide

/-- C9 amended: provided the status-recording database connection can
be opened for every device of the list, a failure (any raised
exception) while fetching, decoding or persisting the data of one
device never aborts the cycle for the remaining devices: the loop
completes, every device of the list is processed, and a device whose
fetch failed is recorded offline with its error message.  Without that
proviso the claim fails — `update_device_status` runs
`get_db_connection()`/`cursor()` before its `try`, so a connect failure
while an error is being handled escapes and aborts the loop (see the
counterexample). -/
theorem C9_amended_isolation (fetch persist statusConn : String → Except String Unit)
    (devices : List Device)
    (hconn : ∀ d ∈ devices, statusConn d.device_id = Except.ok ()) :
    ∃ steps, collect_all_devices fetch persist statusConn devices = Except.ok steps ∧
      (∀ d ∈ devices, ∃ st ∈ steps, stepDevice st = d.device_id) ∧
      (∀ d ∈ devices, ∀ e, fetch d.device_id = Except.error e →
        CollectStep.statusOffline d.device_id e ∈ steps) := by
  refine ⟨devices.flatMap (deviceSteps fetch persist), ?_, ?_, ?_⟩
  · rw [collect_all_devices,
      collect_all_devices_go fetch persist statusConn devices [] hconn, List.nil_append]
  · intro d hd
    have hmem : ∀ st ∈ deviceSteps fetch persist d,
        st ∈ devices.flatMap (deviceSteps fetch persist) := by
      intro st hst
      exact List.mem_flatMap.mpr ⟨d, hd, hst⟩
    cases hf : fetch d.device_id with
    | error e =>
      refine ⟨CollectStep.statusOffline d.device_id e, hmem _ ?_, rfl⟩
      rw [deviceSteps, hf]
      exact List.mem_singleton_self _
    | ok u =>
      refine ⟨CollectStep.statusOnline d.device_id, hmem _ ?_, rfl⟩
      rw [deviceSteps, hf]
      cases hp : persist d.device_id with
      | error e => exact List.mem_cons_self _ _
      | ok u2 => exact List.mem_cons_self _ _
  · intro d hd e he
    refine List.mem_flatMap.mpr ⟨d, hd, ?_⟩
    rw [deviceSteps, he]
    exact List.mem_singleton_self _

/-- Witness for C9: device "a" unreachable, device "b" healthy, the
status-recording connection available — the cycle completes, "a" is
recorded offline with the message, "b" is still processed. -/
theorem C9_amended_isolation_witness :
    ∃ steps,
      collect_all_devices
          (fun id => if id = "a" then Except.error "connection timeout" else Except.ok ())
          (fun _ => Except.ok ())
          (fun _ => Except.ok ())
          [⟨"a", "10.0.0.1"⟩, ⟨"b", "10.0.0.2"⟩] = Except.ok steps ∧
        CollectStep.statusOffline "a" "connection timeout" ∈ steps ∧
        (∃ st ∈ steps, stepDevice st = "b") := by
  obtain ⟨steps, h1, h2, h3⟩ := C9_amended_isolation
    (fun id => if id = "a" then Except.error "connection timeout" else Except.ok ())
    (fun _ => Except.ok ()) (fun _ => Except.ok ())
    [⟨"a", "10.0.0.1"⟩, ⟨"b", "10.0.0.2"⟩] (fun d hd => rfl)
  refine ⟨steps, h1, ?_, ?_⟩
  · exact h3 ⟨"a", "10.0.0.1"⟩ (List.mem_cons_self _ _) "connection timeout" (by rfl)
  · exact h2 ⟨"b", "10.0.0.2"⟩ (List.mem_cons_of_mem _ (List.mem_singleton_self _))

end MinerSentinel
